import Mathlib

/-!
Shallow embedding of the real-time execution-tracking client of this
repository (`frontend/src/services/websocket.ts`, class `WebSocketClient`,
and `frontend/src/hooks/useWebSocket.ts`, hook `useWebSocket`).

Conventions of the embedding:
* The browser `WebSocket` object is represented by its `readyState`
  (the only attribute the client reads); `this.ws : WebSocket | null`
  becomes `ws : Option ReadyState`.
* A JS `Set<string>` is an insertion-ordered collection without duplicates;
  we model it as a `List String` kept duplicate-free, with `Set.add`
  appending a fresh element at the end and `Set.delete` removing it.
* `setTimeout` scheduling is modelled by returning the delay that the call
  would pass to `setTimeout` (`Option Nat`, `none` when nothing is
  scheduled).
* Side effects (frames written to the wire, events emitted to handlers,
  console output) are returned as explicit output values.
-/

namespace WSClient

/-- Values of `WebSocket.readyState` (the client only compares against `OPEN`). -/
inductive ReadyState where
  | CONNECTING
  | OPEN
  | CLOSING
  | CLOSED
deriving DecidableEq, Repr

/-- Embeds `ExecutionUpdate` from `apiTypes.ts`: the nested payload of an
`execution_update` message.  Only the fields the client reads are kept;
the remaining fields are opaque to this layer and folded into `rest`. -/
structure ExecutionUpdate where
  type : String
  status : String
  progress : Nat
  rest : String := ""
deriving DecidableEq, Repr

/-- Embeds `WebSocketMessage` from `apiTypes.ts`:
`{ type: string, execution_id?: string, data?: any, timestamp?: string, error?: string }`. -/
structure WSMessage where
  type : String
  execution_id : Option String := none
  data : Option ExecutionUpdate := none
  timestamp : Option String := none
  error : Option String := none
deriving DecidableEq, Repr

/-- An outbound frame written by `sendMessage` (all outbound shapes the
client produces carry at most a `type` and an `execution_id`). -/
structure Frame where
  type : String
  execution_id : Option String := none
deriving DecidableEq, Repr

/-- The mutable fields of `WebSocketClient` that the connection lifecycle,
subscription and send paths touch (`ws`, `connected`, `reconnectAttempts`,
`subscriptions`).  `url`/`clientId` are immutable strings and
`eventHandlers` is modelled separately (handlers are functions). -/
structure ClientState where
  ws : Option ReadyState := none
  connected : Bool := false
  reconnectAttempts : Nat := 0
  subscriptions : List String := []
deriving DecidableEq, Repr

/-- Embeds `private maxReconnectAttempts: number = 5`. -/
def maxReconnectAttempts : Nat := 5

/-- Embeds `private reconnectDelay: number = 1000`. -/
def reconnectDelay : Nat := 1000

/-- The state a freshly constructed `WebSocketClient` starts in
(field initializers of the class). -/
def initialState : ClientState := {}

/-- Embeds `isConnected()`: `this.connected && this.ws?.readyState === WebSocket.OPEN`. -/
def isConnected (st : ClientState) : Bool :=
  st.connected && (match st.ws with
    | some rs => rs = ReadyState.OPEN
    | none => false)

/-- Output of `sendMessage`: either the frame was written to the wire or a
console warning was produced. -/
inductive SendOutput where
  | sent (frame : Frame)
  | warned (msg : String)
deriving DecidableEq, Repr

/-- Embeds `sendMessage(message)`: if `isConnected()` then `this.ws!.send(...)`
else `console.warn(...)`.  The client state is not mutated on either path;
the function is total (never throws). -/
def sendMessage (st : ClientState) (m : Frame) : ClientState × SendOutput :=
  if isConnected st then
    (st, SendOutput.sent m)
  else
    (st, SendOutput.warned "WebSocket not connected, cannot send message")

/-- JS `Set.add`: appends the element unless already present. -/
def setAdd (l : List String) (x : String) : List String :=
  if x ∈ l then l else l ++ [x]

/-- JS `Set.delete`: removes the element (no-op when absent). -/
def setDelete (l : List String) (x : String) : List String :=
  l.filter (fun y => y ≠ x)

/-- Embeds `subscribe(executionId)`: sends a `subscribe` frame via `sendMessage`,
then adds the id to `this.subscriptions`. -/
def subscribe (st : ClientState) (id : String) : ClientState × SendOutput :=
  let (st1, out) := sendMessage st { type := "subscribe", execution_id := some id }
  ({ st1 with subscriptions := setAdd st1.subscriptions id }, out)

/-- Embeds `unsubscribe(executionId)`: sends an `unsubscribe` frame via
`sendMessage`, then deletes the id from `this.subscriptions`. -/
def unsubscribe (st : ClientState) (id : String) : ClientState × SendOutput :=
  let (st1, out) := sendMessage st { type := "unsubscribe", execution_id := some id }
  ({ st1 with subscriptions := setDelete st1.subscriptions id }, out)

/-- Embeds `disconnect()`: inside `if (this.ws)` it closes the socket with status
code `1000` and reason `"Client disconnect"`, nulls `this.ws`, sets
`connected = false` and clears `this.subscriptions`; with no socket the
whole body is skipped.  The returned `Option (Nat × String)` is the
`(code, reason)` passed to `ws.close`, `none` when no close was issued. -/
def disconnect (st : ClientState) : ClientState × Option (Nat × String) :=
  match st.ws with
  | some _ =>
      ({ st with ws := none, connected := false, subscriptions := [] },
        some (1000, "Client disconnect"))
  | none => (st, none)

/-- Embeds `attemptReconnect()` up to its `setTimeout` call: increments
`this.reconnectAttempts` and computes
`delay = this.reconnectDelay * Math.pow(2, this.reconnectAttempts - 1)`;
returns the new state and the scheduled delay. -/
def attemptReconnect (st : ClientState) : ClientState × Nat :=
  let st1 := { st with reconnectAttempts := st.reconnectAttempts + 1 }
  (st1, reconnectDelay * 2 ^ (st1.reconnectAttempts - 1))

/-- The `ws.onclose` handler: sets `connected = false`, emits
`disconnected`, and — when `event.code !== 1000` and
`this.reconnectAttempts < this.maxReconnectAttempts` — calls
`attemptReconnect`.  Output: the emitted lifecycle event name and the
delay scheduled for a reconnect (`none` when no reconnect is scheduled). -/
def handleClose (code : Nat) (st : ClientState) :
    ClientState × String × Option Nat :=
  let st1 := { st with connected := false }
  if code ≠ 1000 ∧ st1.reconnectAttempts < maxReconnectAttempts then
    let (st2, delay) := attemptReconnect st1
    (st2, "disconnected", some delay)
  else
    (st1, "disconnected", none)

/-- The `ws.onopen` handler: sets `connected = true`, resets
`this.reconnectAttempts` to `0` and emits `connected`.  The socket
delivering `onopen` is in state `OPEN`; `connect()` had assigned it to
`this.ws`. -/
def handleOpen (st : ClientState) : ClientState × String :=
  ({ st with ws := some ReadyState.OPEN, connected := true, reconnectAttempts := 0 },
    "connected")

/-- The delays scheduled over `n` consecutive close events with status
`code`, starting from `st`, with no intervening open (one list entry per
close event; `none` = that close scheduled no reconnect). -/
def closeDelays (code : Nat) : Nat → ClientState → List (Option Nat)
  | 0, _ => []
  | n + 1, st =>
      let (st', _, d) := handleClose code st
      d :: closeDelays code n st'

/-- The resubscription loop in `attemptReconnect`'s `setTimeout` body:
`for (const executionId of this.subscriptions) { await this.subscribe(executionId); }`,
run over the iteration snapshot of the set; returns the final state and
the `sendMessage` output of each `subscribe` call in order. -/
def resubscribeLoop : ClientState → List String → ClientState × List SendOutput
  | st, [] => (st, [])
  | st, id :: ids =>
      let (st1, out) := subscribe st id
      let (st2, outs) := resubscribeLoop st1 ids
      (st2, out :: outs)

/-- The success path of the reconnect timer body: `await this.connect()`
succeeds (the `onopen` handler runs), then every id in
`this.subscriptions` is resubscribed.  The returned list is the complete
outbound traffic of this path (nothing else is written before or between
the subscribe frames). -/
def reconnectSuccess (st : ClientState) : ClientState × List SendOutput :=
  let (st1, _ev) := handleOpen st
  resubscribeLoop st1 st1.subscriptions

/-- A registered event handler.  A JS handler either returns or throws;
we embed it as a function into `Except`, the thrown value being a string. -/
def Handler : Type := WSMessage → Except String Unit

/-- What `emit`'s per-handler `try/catch` produced for one handler:
a normal return, or a thrown error that was caught and logged. -/
inductive HandlerOutcome where
  | ok
  | caught (e : String)
deriving DecidableEq, Repr

/-- The body of `emit`: `handlers.forEach(handler => { try { handler(message) } catch (error) { console.error(...) } })`.
Every handler in the list is invoked, in list order, each under its own
`try/catch`. -/
def runHandlers : List Handler → WSMessage → List HandlerOutcome
  | [], _ => []
  | h :: hs, msg =>
      (match h msg with
       | Except.ok _ => HandlerOutcome.ok
       | Except.error e => HandlerOutcome.caught e) :: runHandlers hs msg

/-- The handler table `eventHandlers : Map<string, WebSocketEventHandler[]>`,
as the total lookup event-name → handler list (`Map.get` of a missing key
yields no handlers). -/
def HandlerTable : Type := String → List Handler

/-- Embeds `on(event, handler)`: pushes the handler at the END of the event's
list (so lists hold handlers in registration order). -/
def onEvent (tbl : HandlerTable) (event : String) (h : Handler) : HandlerTable :=
  fun e => if e = event then tbl e ++ [h] else tbl e

/-- Embeds `handleMessage(message)`: emits the message first under its own
`message.type`, then under the generic `"message"` event name — two
dispatches, both carrying the same message value. -/
def handleMessageDispatch (msg : WSMessage) : List (String × WSMessage) :=
  [(msg.type, msg), ("message", msg)]

/-- The `ws.onmessage` handler, as a function of the outcome of
`JSON.parse(event.data)` (a host primitive: `Except.error` is a thrown
`SyntaxError`).  Returns the unchanged client state, the `(event, message)`
dispatches performed, and the console-error lines written. -/
def onMessage (st : ClientState) (parsed : Except String WSMessage) :
    ClientState × List (String × WSMessage) × List String :=
  match parsed with
  | Except.ok msg => (st, handleMessageDispatch msg, [])
  | Except.error e => (st, [], ["Error parsing WebSocket message: " ++ e])

/-- The terminal marker `waitForCompletion` tests `message.data.type`
against: `'completion'`. -/
def completionType : String := "completion"

/-- Default `timeout` parameter of `waitForCompletion`: `30000` ms. -/
def defaultCompletionTimeout : Nat := 30000

/-- The rejection message of `waitForCompletion`'s timeout path. -/
def timeoutError (executionId : String) : String :=
  "Timeout waiting for execution " ++ executionId ++ " completion"

/-- The resolution test of `waitForCompletion`'s handler:
`message.execution_id === executionId` and `(message.data as ExecutionUpdate).type === 'completion'`.
(With `data` absent the JS handler throws on `update.type` before reaching
`resolve`; the throw is caught by `emit`'s `try/catch`, so nothing is
resolved — the predicate is false there.) -/
def completionMatches (executionId : String) (msg : WSMessage) : Bool :=
  msg.execution_id = some executionId &&
    (match msg.data with
     | some u => u.type = completionType
     | none => false)

/-- Outcome of the promise returned by `waitForCompletion`. -/
inductive WaiterOutcome where
  | resolved (msg : WSMessage)
  | rejected (err : String)
deriving DecidableEq, Repr

/-- A pending `waitForCompletion(executionId, timeout)` call: the awaited
id, the `setTimeout` deadline, the promise outcome (`none` while pending)
and whether its handler is still registered on `'execution_update'`. -/
structure WaiterState where
  executionId : String
  deadline : Nat
  outcome : Option WaiterOutcome := none
  registered : Bool := true
deriving DecidableEq, Repr

/-- The state right after `waitForCompletion(executionId, timeout)`
registers its handler and arms its timer. -/
def waiterInit (executionId : String) (timeout : Nat) : WaiterState :=
  { executionId := executionId, deadline := timeout }

/-- One `'execution_update'` delivery to the waiter at time `t` (ms after
registration).  The timer armed at registration fires at `deadline`ms:
a delivery at `t ≥ deadline` finds the timeout callback already run
(promise rejected, handler removed via `off`).  A matching delivery
before the deadline clears the timer, removes the handler and resolves.
A deregistered handler is never invoked again. -/
def waiterDeliver (w : WaiterState) (t : Nat) (msg : WSMessage) : WaiterState :=
  if w.registered then
    if w.deadline ≤ t then
      { w with outcome := some (WaiterOutcome.rejected (timeoutError w.executionId)),
               registered := false }
    else if completionMatches w.executionId msg then
      { w with outcome := some (WaiterOutcome.resolved msg), registered := false }
    else w
  else w

/-- Run one `waitForCompletion(executionId, timeout)` call against a
finite timeline of `(arrival time, message)` deliveries; if the handler is
still registered once all deliveries are processed, the armed timer
eventually fires and the timeout callback runs. -/
def runWaiter (executionId : String) (timeout : Nat)
    (events : List (Nat × WSMessage)) : WaiterState :=
  let w := events.foldl (fun w e => waiterDeliver w e.1 e.2) (waiterInit executionId timeout)
  if w.registered then
    { w with outcome := some (WaiterOutcome.rejected (timeoutError executionId)),
             registered := false }
  else w

/-- Embeds `executionUpdates : Record<string, ExecutionUpdate[]>` of
`useWebSocket`, as the total lookup job-id → stored list (a lookup of a
missing key yields `undefined`, which every reader of this record
immediately replaces by `[]` / `null`; the model bakes the `[]` default
into the lookup).  Elements are the raw `message.data` values — the cast
`message.data as ExecutionUpdate` also stores an absent `data` (`none`)
verbatim. -/
def ExecUpdates : Type := String → List (Option ExecutionUpdate)

/-- Embeds `useState<Record<string, ExecutionUpdate[]>>({})`: the initial, empty
record. -/
def emptyUpdates : ExecUpdates := fun _ => []

/-- Embeds `handleExecutionUpdate(message)` of `useWebSocket`: guarded by the JS
truthiness test `if (message.execution_id)` — false both for a missing id
and for the empty string — it appends `message.data` to that id's history
(`[...(prev[id] || []), message.data]`), creating the history if absent. -/
def handleExecutionUpdate (m : ExecUpdates) (msg : WSMessage) : ExecUpdates :=
  match msg.execution_id with
  | some id =>
      if id = "" then m
      else fun k => if k = id then m id ++ [msg.data] else m k
  | none => m

/-- Deliver a sequence of `'execution_update'` messages, in arrival order,
through `handleExecutionUpdate`. -/
def processUpdates (msgs : List WSMessage) : ExecUpdates :=
  msgs.foldl handleExecutionUpdate emptyUpdates

/-- Embeds `getExecutionUpdates(executionId)`: `executionUpdates[executionId] || []`. -/
def getExecutionUpdates (m : ExecUpdates) (id : String) :
    List (Option ExecutionUpdate) :=
  m id

/-- Embeds `getLatestExecutionUpdate(executionId)`:
`updates && updates.length > 0 ? updates[updates.length - 1] : null`
(`none` = JS `null`). -/
def getLatestExecutionUpdate (m : ExecUpdates) (id : String) :
    Option (Option ExecutionUpdate) :=
  let updates := m id
  if updates.length > 0 then updates.getLast? else none

/-! ### Theorems -/

/-- Six consecutive unexpected closes from a zero attempt counter:
the first five schedule 1s, 2s, 4s, 8s, 16s; the sixth schedules nothing. -/
theorem closeDelays_six (st : ClientState) (code : Nat)
    (h0 : st.reconnectAttempts = 0) (hc : code ≠ 1000) :
    closeDelays code 6 st
      = [some 1000, some 2000, some 4000, some 8000, some 16000, none] := by
  simp [closeDelays, handleClose, attemptReconnect, maxReconnectAttempts,
    reconnectDelay, h0, hc]

/-- C1: for a run of consecutive unexpected closes starting from a reset
attempt counter and with no intervening successful open, the delay
scheduled before reconnect attempt `k` (1 ≤ k ≤ 5) is `1000 * 2 ^ (k - 1)`
milliseconds, and the close following the 5th failed attempt schedules no
6th reconnect. -/
theorem reconnect_backoff_schedule (st : ClientState) (code k : Nat)
    (h0 : st.reconnectAttempts = 0) (hc : code ≠ 1000)
    (hk1 : 1 ≤ k) (hk5 : k ≤ 5) :
    (closeDelays code 6 st).get? (k - 1) = some (some (1000 * 2 ^ (k - 1)))
  ∧ (closeDelays code 6 st).get? 5 = some none := by
  rw [closeDelays_six st code h0 hc]
  refine ⟨?_, rfl⟩
  interval_cases k <;> rfl

/-- Witness for C1 at the freshly constructed client, close code 1006,
attempt k = 3. -/
theorem reconnect_backoff_schedule_witness :
    (closeDelays 1006 6 initialState).get? (3 - 1)
        = some (some (1000 * 2 ^ (3 - 1)))
  ∧ (closeDelays 1006 6 initialState).get? 5 = some none :=
  reconnect_backoff_schedule initialState 1006 3 rfl (by decide)
    (by decide) (by decide)

/-- C7: `sendMessage` never throws and never mutates client state; when
the client is Connected it transmits the frame, otherwise it produces only
a console warning. -/
theorem sendMessage_total_spec (st : ClientState) (m : Frame) :
    (sendMessage st m).1 = st
  ∧ (isConnected st = true → (sendMessage st m).2 = SendOutput.sent m)
  ∧ (isConnected st = false →
      (sendMessage st m).2
        = SendOutput.warned "WebSocket not connected, cannot send message") := by
  unfold sendMessage
  by_cases h : isConnected st <;> simp [h]

/-- Witness for C7: sending a ping on a never-connected client warns
instead of transmitting, and on an open connected client transmits. -/
theorem sendMessage_total_spec_witness :
    (sendMessage initialState { type := "ping" }).2
        = SendOutput.warned "WebSocket not connected, cannot send message"
  ∧ (sendMessage { initialState with ws := some ReadyState.OPEN, connected := true }
        { type := "ping" }).2
        = SendOutput.sent { type := "ping" } :=
  ⟨(sendMessage_total_spec initialState { type := "ping" }).2.2 rfl,
   (sendMessage_total_spec
      { initialState with ws := some ReadyState.OPEN, connected := true }
      { type := "ping" }).2.1 rfl⟩

/-- C8: a caller-initiated `disconnect` on a live socket closes it with
status code 1000 (distinct from failure closes), clears the subscription
set and transitions to Disconnected; the close event that follows carries
code 1000, and the `onclose` handler never schedules a reconnect for code
1000, whatever the client state. -/
theorem disconnect_no_reconnect (st : ClientState) (rs : ReadyState)
    (hws : st.ws = some rs) :
    (disconnect st).2 = some (1000, "Client disconnect")
  ∧ (disconnect st).1.subscriptions = []
  ∧ (disconnect st).1.connected = false
  ∧ ∀ st2 : ClientState, (handleClose 1000 st2).2.2 = none := by
  refine ⟨?_, ?_, ?_, ?_⟩ <;>
    first
      | (intro st2; simp [handleClose])
      | simp [disconnect, hws]

/-- Witness for C8 at a connected client with one subscription. -/
theorem disconnect_no_reconnect_witness :
    (disconnect { ws := some ReadyState.OPEN, connected := true,
                  reconnectAttempts := 0, subscriptions := ["A"] }).2
        = some (1000, "Client disconnect")
  ∧ (disconnect { ws := some ReadyState.OPEN, connected := true,
                  reconnectAttempts := 0, subscriptions := ["A"] }).1.subscriptions = []
  ∧ (disconnect { ws := some ReadyState.OPEN, connected := true,
                  reconnectAttempts := 0, subscriptions := ["A"] }).1.connected = false
  ∧ ∀ st2 : ClientState, (handleClose 1000 st2).2.2 = none :=
  disconnect_no_reconnect
    { ws := some ReadyState.OPEN, connected := true,
      reconnectAttempts := 0, subscriptions := ["A"] }
    ReadyState.OPEN rfl

/-- C9: unsubscribing a job id that is not in the subscription set never
raises (the call completes with one of `sendMessage`'s two outputs) and
leaves the subscription set unchanged. -/
theorem unsubscribe_absent_noop (st : ClientState) (id : String)
    (h : id ∉ st.subscriptions) :
    (unsubscribe st id).1.subscriptions = st.subscriptions
  ∧ ((unsubscribe st id).2
        = SendOutput.sent { type := "unsubscribe", execution_id := some id }
     ∨ (unsubscribe st id).2
        = SendOutput.warned "WebSocket not connected, cannot send message") := by
  constructor
  · simp [unsubscribe, sendMessage, setDelete]
    by_cases hcon : isConnected st <;>
      simp [hcon] <;>
      exact fun a ha hEq => h (hEq ▸ ha)
  · simp only [unsubscribe, sendMessage]
    by_cases hcon : isConnected st <;> simp [hcon]

/-- Witness for C9: unsubscribing "X" on a fresh client (empty set). -/
theorem unsubscribe_absent_noop_witness :
    (unsubscribe initialState "X").1.subscriptions = initialState.subscriptions
  ∧ ((unsubscribe initialState "X").2
        = SendOutput.sent { type := "unsubscribe", execution_id := some "X" }
     ∨ (unsubscribe initialState "X").2
        = SendOutput.warned "WebSocket not connected, cannot send message") :=
  unsubscribe_absent_noop initialState "X" (by simp [initialState])

/-- C10: `disconnect` on a client whose socket reference is null is a
complete no-op — no close frame, and every field (the subscription set
and the connected flag included) keeps its prior value. -/
theorem disconnect_never_connected_noop (st : ClientState) (h : st.ws = none) :
    disconnect st = (st, none) := by
  simp [disconnect, h]

/-- The `sendMessage` output of one replayed `subscribe(id)` call. -/
def subscribeSent (id : String) : SendOutput :=
  SendOutput.sent { type := "subscribe", execution_id := some id }

theorem subscribeSent_injective : Function.Injective subscribeSent := by
  intro a b hab
  simpa [subscribeSent] using hab

/-- On a connected client the resubscription loop sends exactly one
subscribe frame per iterated id, in iteration order, and nothing else. -/
theorem resubscribeLoop_outputs (ids : List String) (st : ClientState)
    (h : isConnected st = true) :
    (resubscribeLoop st ids).2 = ids.map subscribeSent := by
  induction ids generalizing st with
  | nil => rfl
  | cons id ids ih =>
      have h1 : isConnected
          { st with subscriptions := setAdd st.subscriptions id } = true := by
        simpa [isConnected] using h
      simp [resubscribeLoop, subscribe, sendMessage, h, subscribeSent, ih _ h1]

/-- C2: the outbound traffic of the reconnect-success path (the
`setTimeout` body of `attemptReconnect` once `connect()` has resolved) is
exactly the list of subscribe frames for the subscription set, in set
(insertion) order — so each entry gets exactly one subscribe frame, and no
other frame precedes or interleaves them. -/
theorem resubscription_after_reconnect (st : ClientState)
    (hnd : st.subscriptions.Nodup) :
    (reconnectSuccess st).2 = st.subscriptions.map subscribeSent
  ∧ ∀ id ∈ st.subscriptions,
      (reconnectSuccess st).2.count (subscribeSent id) = 1 := by
  have hout : (reconnectSuccess st).2 = st.subscriptions.map subscribeSent := by
    have hc : isConnected
        { st with ws := some ReadyState.OPEN, connected := true,
                  reconnectAttempts := 0 } = true := by
      simp [isConnected]
    simpa [reconnectSuccess, handleOpen] using
      resubscribeLoop_outputs st.subscriptions _ hc
  refine ⟨hout, fun id hid => ?_⟩
  rw [hout, List.count_map_of_injective _ _ subscribeSent_injective]
  exact List.count_eq_one_of_mem hnd hid

/-- Witness for C2 at a connected client subscribed to "A" and "B". -/
theorem resubscription_after_reconnect_witness :
    (reconnectSuccess { ws := some ReadyState.OPEN, connected := true,
                        reconnectAttempts := 0, subscriptions := ["A", "B"] }).2
        = ["A", "B"].map subscribeSent
  ∧ ∀ id ∈ ["A", "B"],
      (reconnectSuccess { ws := some ReadyState.OPEN, connected := true,
                          reconnectAttempts := 0,
                          subscriptions := ["A", "B"] }).2.count (subscribeSent id)
        = 1 :=
  resubscription_after_reconnect
    { ws := some ReadyState.OPEN, connected := true,
      reconnectAttempts := 0, subscriptions := ["A", "B"] }
    (by decide)

/-- C4 counterexample: a frame whose parse throws (here a `SyntaxError`
on the fresh client) produces NO dispatched event at all — in particular
no `error` event — because the `onmessage` catch block only writes to the
console. -/
theorem parse_failure_emits_no_error_event :
    ¬ ∃ m : WSMessage,
        ("error", m) ∈ (onMessage initialState (Except.error "SyntaxError")).2.1 := by
  simp [onMessage]

/-- C4 (amended): a parse failure is caught and logged to the console;
the offending frame is dropped and the client state — hence the open
connection — is untouched; no event (in particular no `error` event) is
emitted. -/
theorem parse_failure_dropped_and_logged (st : ClientState) (e : String) :
    (onMessage st (Except.error e)).1 = st
  ∧ (onMessage st (Except.error e)).2.1 = []
  ∧ (onMessage st (Except.error e)).2.2
      = ["Error parsing WebSocket message: " ++ e] :=
  ⟨rfl, rfl, rfl⟩

/-- C5: every parsed message is dispatched exactly twice — under its own
`type`, then under the generic `"message"` name, both with the same
message value; `on` registers handlers at the tail of the event's list
(so lists are in registration order and `emit` runs them in that order);
and a handler that throws is caught (its outcome is `caught`) while every
handler after it in the same dispatch still runs with its own outcome. -/
theorem dispatch_twice_and_handler_isolation :
    (∀ msg : WSMessage,
        handleMessageDispatch msg = [(msg.type, msg), ("message", msg)])
  ∧ (∀ (tbl : HandlerTable) (event : String) (h : Handler),
        onEvent tbl event h event = tbl event ++ [h])
  ∧ (∀ (msg : WSMessage) (hs1 hs2 : List Handler) (h : Handler) (e : String),
        h msg = Except.error e →
        runHandlers (hs1 ++ h :: hs2) msg
          = runHandlers hs1 msg
              ++ HandlerOutcome.caught e :: runHandlers hs2 msg) := by
  refine ⟨fun _ => rfl, fun tbl event h => by simp [onEvent], ?_⟩
  intro msg hs1 hs2 h e he
  induction hs1 with
  | nil => simp [runHandlers, he]
  | cons h0 hs0 ih => simp [runHandlers, ih]

/-- A handler that always throws. -/
def throwingHandler : Handler := fun _ => Except.error "boom"

/-- A handler that always returns normally. -/
def okHandler : Handler := fun _ => Except.ok ()

/-- Witness for C5: with a throwing handler registered before a normal
one, `emit` still runs the second handler and records the caught error. -/
theorem dispatch_twice_and_handler_isolation_witness :
    runHandlers ([] ++ throwingHandler :: [okHandler])
        { type := "message" }
      = runHandlers [] { type := "message" }
          ++ HandlerOutcome.caught "boom"
              :: runHandlers [okHandler] { type := "message" } :=
  dispatch_twice_and_handler_isolation.2.2 { type := "message" }
    [] [okHandler] throwingHandler "boom" rfl

/-- Once the waiter's handler is deregistered, further deliveries are
no-ops (the one-shot promise is settled). -/
theorem foldDeliver_done (w : WaiterState) (hw : w.registered = false)
    (l : List (Nat × WSMessage)) :
    l.foldl (fun w e => waiterDeliver w e.1 e.2) w = w := by
  induction l with
  | nil => rfl
  | cons p l ih =>
      rw [List.foldl_cons, show waiterDeliver w p.1 p.2 = w from by
        simp [waiterDeliver, hw]]
      exact ih

/-- Deliveries that arrive before the deadline and do not match the
awaited completion leave the waiter pending and registered. -/
theorem foldDeliver_pending (executionId : String) (timeout : Nat)
    (pre : List (Nat × WSMessage))
    (h1 : ∀ p ∈ pre, p.1 < timeout)
    (h2 : ∀ p ∈ pre, completionMatches executionId p.2 = false) :
    pre.foldl (fun w e => waiterDeliver w e.1 e.2)
        (waiterInit executionId timeout)
      = waiterInit executionId timeout := by
  induction pre with
  | nil => rfl
  | cons p l ih =>
      rw [List.foldl_cons, show
          waiterDeliver (waiterInit executionId timeout) p.1 p.2
            = waiterInit executionId timeout from by
        simp [waiterDeliver, waiterInit, Nat.not_le.mpr (h1 p (by simp)),
          h2 p (by simp)]]
      exact ih (fun q hq => h1 q (by simp [hq])) (fun q hq => h2 q (by simp [hq]))

/-- With no matching completion delivered before the deadline, the waiter
either stays pending (every delivery was early and non-matching) or was
rejected by the timer firing ahead of a late delivery. -/
theorem foldDeliver_no_match (executionId : String) (timeout : Nat)
    (events : List (Nat × WSMessage))
    (h : ∀ p ∈ events, p.1 < timeout → completionMatches executionId p.2 = false) :
    events.foldl (fun w e => waiterDeliver w e.1 e.2)
        (waiterInit executionId timeout)
      = waiterInit executionId timeout
  ∨ events.foldl (fun w e => waiterDeliver w e.1 e.2)
        (waiterInit executionId timeout)
      = { executionId := executionId, deadline := timeout,
          outcome := some (WaiterOutcome.rejected (timeoutError executionId)),
          registered := false } := by
  induction events with
  | nil => exact Or.inl rfl
  | cons p l ih =>
      rw [List.foldl_cons]
      by_cases ht : p.1 < timeout
      · rw [show waiterDeliver (waiterInit executionId timeout) p.1 p.2
              = waiterInit executionId timeout from by
          simp [waiterDeliver, waiterInit, Nat.not_le.mpr ht, h p (by simp) ht]]
        exact ih (fun q hq hqt => h q (by simp [hq]) hqt)
      · rw [show waiterDeliver (waiterInit executionId timeout) p.1 p.2
              = { executionId := executionId, deadline := timeout,
                  outcome := some (WaiterOutcome.rejected (timeoutError executionId)),
                  registered := false } from by
          simp [waiterDeliver, waiterInit, Nat.not_lt.mp ht]]
        rw [foldDeliver_done _ rfl l]
        exact Or.inr rfl

/-- C3: (i) if the first delivery matching the awaited job id and the
completion marker arrives before the deadline — with every earlier
delivery early and non-matching, other jobs' terminal updates included —
the promise resolves with exactly that message and the handler is
deregistered, later deliveries being ignored; (ii) a message for a
different job id never matches; (iii) if no matching update is delivered
before the deadline the promise rejects with the timeout error and the
handler is deregistered; (iv) the default timeout is 30000 ms. -/
theorem waitForCompletion_spec :
    (∀ (executionId : String) (timeout : Nat)
        (pre post : List (Nat × WSMessage)) (t : Nat) (msg : WSMessage),
        (∀ p ∈ pre, p.1 < timeout) →
        (∀ p ∈ pre, completionMatches executionId p.2 = false) →
        t < timeout →
        completionMatches executionId msg = true →
        (runWaiter executionId timeout (pre ++ (t, msg) :: post)).outcome
            = some (WaiterOutcome.resolved msg)
          ∧ (runWaiter executionId timeout (pre ++ (t, msg) :: post)).registered
            = false)
  ∧ (∀ (executionId : String) (msg : WSMessage),
        msg.execution_id ≠ some executionId →
        completionMatches executionId msg = false)
  ∧ (∀ (executionId : String) (timeout : Nat)
        (events : List (Nat × WSMessage)),
        (∀ p ∈ events, p.1 < timeout → completionMatches executionId p.2 = false) →
        (runWaiter executionId timeout events).outcome
            = some (WaiterOutcome.rejected (timeoutError executionId))
          ∧ (runWaiter executionId timeout events).registered = false)
  ∧ defaultCompletionTimeout = 30000 := by
  refine ⟨?_, ?_, ?_, rfl⟩
  · intro executionId timeout pre post t msg h1 h2 ht hm
    have hres : (pre ++ (t, msg) :: post).foldl
        (fun w e => waiterDeliver w e.1 e.2) (waiterInit executionId timeout)
        = { executionId := executionId, deadline := timeout,
            outcome := some (WaiterOutcome.resolved msg), registered := false } := by
      rw [List.foldl_append, foldDeliver_pending executionId timeout pre h1 h2,
        List.foldl_cons, show waiterDeliver (waiterInit executionId timeout) t msg
          = { executionId := executionId, deadline := timeout,
              outcome := some (WaiterOutcome.resolved msg),
              registered := false } from by
        simp [waiterDeliver, waiterInit, Nat.not_le.mpr ht, hm]]
      exact foldDeliver_done _ rfl post
    constructor <;> simp [runWaiter, hres]
  · intro executionId msg h
    simp [completionMatches, h]
  · intro executionId timeout events h
    rcases foldDeliver_no_match executionId timeout events h with hcase | hcase <;>
      simp only [waiterInit] at hcase <;>
      constructor <;> simp [runWaiter, waiterInit, hcase]

/-- A terminal (completion) update for job "J". -/
def sampleCompletionJ : WSMessage :=
  { type := "execution_update", execution_id := some "J",
    data := some { type := "completion", status := "completed", progress := 100 } }

/-- A terminal (completion) update for the unrelated job "K". -/
def sampleCompletionK : WSMessage :=
  { type := "execution_update", execution_id := some "K",
    data := some { type := "completion", status := "completed", progress := 100 } }

/-- Witness for C3: waiting on "J" with a 5000 ms timeout, a terminal
update for "K" at 10 ms does not resolve the waiter; the terminal update
for "J" at 20 ms resolves it and deregisters the handler. -/
theorem waitForCompletion_spec_witness :
    (runWaiter "J" 5000
        ([(10, sampleCompletionK)] ++ (20, sampleCompletionJ) :: [])).outcome
        = some (WaiterOutcome.resolved sampleCompletionJ)
  ∧ (runWaiter "J" 5000
        ([(10, sampleCompletionK)] ++ (20, sampleCompletionJ) :: [])).registered
        = false :=
  waitForCompletion_spec.1 "J" 5000 [(10, sampleCompletionK)] [] 20
    sampleCompletionJ (by decide) (by decide) (by decide) (by decide)

/-- Pointwise effect of one `handleExecutionUpdate` on a fixed non-empty
job id: the history of that id grows by `message.data` exactly when the
message carries that id. -/
theorem handleExecutionUpdate_lookup (m : ExecUpdates) (msg : WSMessage)
    (J : String) (hJ : J ≠ "") :
    handleExecutionUpdate m msg J
      = m J ++ (if msg.execution_id = some J then [msg.data] else []) := by
  rcases hid : msg.execution_id with _ | id
  · simp [handleExecutionUpdate, hid]
  · by_cases hempty : id = ""
    · subst hempty
      simp [handleExecutionUpdate, hid, Ne.symm hJ]
    · by_cases heq : J = id
      · subst heq
        simp [handleExecutionUpdate, hid, hempty]
      · simp [handleExecutionUpdate, hid, hempty, heq, Ne.symm heq]

/-- Folding a message sequence appends, per non-empty job id, exactly the
`data` of the messages carrying that id, in arrival order. -/
theorem processUpdates_lookup (msgs : List WSMessage) (m : ExecUpdates)
    (J : String) (hJ : J ≠ "") :
    (msgs.foldl handleExecutionUpdate m) J
      = m J ++ (msgs.filter (fun x => x.execution_id = some J)).map
          (fun x => x.data) := by
  induction msgs generalizing m with
  | nil => simp
  | cons msg rest ih =>
      rw [List.foldl_cons, ih (handleExecutionUpdate m msg),
        handleExecutionUpdate_lookup m msg J hJ]
      by_cases h : msg.execution_id = some J <;>
        simp [h, List.filter_cons]

/-- C6 counterexample: an execution update carrying the job id `""` is
dropped by the JS truthiness guard `if (message.execution_id)`, so the
stored history for `""` stays empty instead of holding the arrived
update. -/
theorem empty_jobid_update_not_stored :
    getExecutionUpdates
        (processUpdates
          [{ type := "execution_update", execution_id := some "",
             data := some { type := "agent_progress", status := "running",
                            progress := 1 } }]) ""
      ≠ [some { type := "agent_progress", status := "running",
                progress := 1 }] := by
  decide

/-- C6 (amended): for every NON-empty job id `J`, the stored history for
`J` is the `data` of the messages carrying `J`, in arrival order with no
deduplication or reordering (so it is `[U1, U2, U3]` after those three
arrive, and `[]` — never an error — when none arrived), and the latest
query returns the last element of that history, or `none` (JS `null`)
when it is empty. -/
theorem history_order_and_latest (J : String) (hJ : J ≠ "")
    (msgs : List WSMessage) :
    getExecutionUpdates (processUpdates msgs) J
        = (msgs.filter (fun x => x.execution_id = some J)).map (fun x => x.data)
  ∧ getLatestExecutionUpdate (processUpdates msgs) J
        = ((msgs.filter (fun x => x.execution_id = some J)).map
            (fun x => x.data)).getLast? := by
  have h1 : getExecutionUpdates (processUpdates msgs) J
      = (msgs.filter (fun x => x.execution_id = some J)).map (fun x => x.data) := by
    have h := processUpdates_lookup msgs emptyUpdates J hJ
    simpa [getExecutionUpdates, processUpdates, emptyUpdates] using h
  have hmJ : processUpdates msgs J
      = (msgs.filter (fun x => x.execution_id = some J)).map (fun x => x.data) := h1
  refine ⟨h1, ?_⟩
  simp only [getLatestExecutionUpdate, hmJ]
  cases ((msgs.filter (fun x => x.execution_id = some J)).map (fun x => x.data)) with
  | nil => rfl
  | cons a l => simp

/-- A sample progress update record. -/
def sampleUpd (n : Nat) : ExecutionUpdate :=
  { type := "agent_progress", status := "running", progress := n }

/-- A sample execution-update message for job "J" with payload `sampleUpd n`. -/
def sampleMsgJ (n : Nat) : WSMessage :=
  { type := "execution_update", execution_id := some "J",
    data := some (sampleUpd n) }

/-- Witness for C6 (amended): feeding U1, U2, U3 for "J" yields the
history `[U1, U2, U3]` and latest `U3`. -/
theorem history_order_and_latest_witness :
    getExecutionUpdates
        (processUpdates [sampleMsgJ 1, sampleMsgJ 2, sampleMsgJ 3]) "J"
        = [some (sampleUpd 1), some (sampleUpd 2), some (sampleUpd 3)]
  ∧ getLatestExecutionUpdate
        (processUpdates [sampleMsgJ 1, sampleMsgJ 2, sampleMsgJ 3]) "J"
        = some (some (sampleUpd 3)) := by
  have h := history_order_and_latest "J" (by decide)
    [sampleMsgJ 1, sampleMsgJ 2, sampleMsgJ 3]
  refine ⟨?_, ?_⟩
  · rw [h.1]; decide
  · rw [h.2]; decide

/-- Witness for C10 at a socketless state with live-looking fields:
nothing is cleared. -/
theorem disconnect_never_connected_noop_witness :
    disconnect { ws := none, connected := true, reconnectAttempts := 2,
                 subscriptions := ["A", "B"] }
      = ({ ws := none, connected := true, reconnectAttempts := 2,
           subscriptions := ["A", "B"] }, none) :=
  disconnect_never_connected_noop
    { ws := none, connected := true, reconnectAttempts := 2,
      subscriptions := ["A", "B"] } rfl

end WSClient
